import Mathlib

/-!
Shallow embedding of the board orchestration subsystem of the
nhl-led-scoreboard repository (`src/boards/boards.py`).

The embedding covers:
* Python list subscripts (with negative indexing) and `getattr` dispatch,
  both of which can raise (`IndexError` / `AttributeError`), modelled in
  the `Except` monad;
* the four rotation-mode loops `_off_day`, `_scheduled`, `_intermission`
  and `_post_game` of class `Boards`, decomposed into the shared blocks
  that the four loops repeat verbatim (push-button check, MQTT check,
  weather-alert check, screensaver check, render step, end-of-iteration
  index bookkeeping);
* the legacy instance cache `_get_cached_board_instance` /
  `clear_board_cache` and the `scoreticker`-style wrapper methods;
* the metadata-driven module loader `_load_single_board`,
  `_validate_requirements`, `_load_board_from_metadata`,
  `_load_boards_from_directory` and `_load_boards`.

Logging calls are modelled as structured events carrying the values the
source interpolates into its messages; rendering a board is the event
`Event.render`.  Board instances are identified by allocation numbers
handed out by the cache, which models Python object identity.
-/

/-- Python exceptions that the modelled code can raise. -/
inductive PyError where
  | indexError
  | attributeError
deriving DecidableEq, Repr

/-- Python list subscript `l[i]`: non-negative indices from the front,
negative indices from the back, `IndexError` when out of range. -/
def pyIndex (l : List String) (i : Int) : Except PyError String :=
  let j : Int := if i < 0 then i + (l.length : Int) else i
  if j < 0 then .error .indexError
  else
    match l.get? j.toNat with
    | some s => .ok s
    | none => .error .indexError

/-- The attributes of the `Boards` object that resolve to a board handler
(dynamically created board methods plus the legacy `def` methods). -/
structure BoardsEnv where
  resolvable : String → Bool

/-- `getattr(self, name, None)` — two-argument form, never raises. -/
def pyGetattrOpt (env : BoardsEnv) (name : String) : Option String :=
  if env.resolvable name then some name else none

/-- `getattr(self, name)` — one-argument form, raises `AttributeError`
when the attribute is missing. -/
def pyGetattr (env : BoardsEnv) (name : String) : Except PyError String :=
  if env.resolvable name then .ok name else .error .attributeError

/-- The slice of `data.config` the rotation loops read. -/
structure Config where
  boards_off_day : List String
  boards_scheduled : List String
  boards_intermission : List String
  boards_post_game : List String
  pushbutton_state_triggered1 : String
deriving DecidableEq, Repr

/-- The slice of the shared `data` object the rotation loops read and
write: the four interrupt flags, the MQTT target board, and the
`curr_board` / `prev_board` bookkeeping fields. -/
structure Data where
  config : Config
  pb_trigger : Bool
  mqtt_trigger : Bool
  wx_alert_interrupt : Bool
  screensaver : Bool
  mqtt_showboard : String
  curr_board : String
  prev_board : String
deriving DecidableEq, Repr

/-- Observable effects of one loop pass: log calls (carrying the values
the source interpolates into the message) and board render calls. -/
inductive Event where
  | topDebug (i : Int) (name : String)
  | pbInfo (pbBoard : String) (overridden : String)
  | mqttInfo (showboard : String) (overridden : String)
  | wxInfo
  | ssInfo
  | displayDebug (name : String)
  | boardNotFound (name : String)
  | render (name : String)
deriving DecidableEq, Repr

/-- The local state of one pass of a rotation loop: the shared `data`
object, the `board` local variable, the `bord_index` local variable and
the events emitted so far. -/
structure IterSt where
  d : Data
  board : Option String
  i : Int
  evs : List Event
deriving DecidableEq, Repr

/-- Result of one full pass of a rotation loop body: final data, the
`bord_index` value for the next pass, the emitted events, and whether the
loop executed `return`. -/
structure IterResult where
  data : Data
  index : Int
  events : List Event
  done : Bool
deriving DecidableEq, Repr

/-- Top of the loop body: `board = getattr(self, lst[bord_index], None)`
and `data.curr_board = lst[bord_index]`; `_off_day` additionally emits a
debug log of the index and board name (`topDbg`). -/
def startBlock (env : BoardsEnv) (lst : List String) (topDbg : Bool)
    (d : Data) (i : Int) : Except PyError IterSt :=
  match pyIndex lst i with
  | .error e => .error e
  | .ok nm =>
    let s : IterSt :=
      { d := { d with curr_board := nm }, board := pyGetattrOpt env nm, i := i, evs := [] }
    if topDbg then .ok { s with evs := [Event.topDebug i nm] } else .ok s

/-- `if data.pb_trigger:` block.  Logs (re-reading `lst[bord_index]`),
clears the flag unless the screensaver flag is set, redirects `board` to
the configured push-button board and decrements the index. -/
def pbBlock (env : BoardsEnv) (lst : List String) (s : IterSt) : Except PyError IterSt :=
  if s.d.pb_trigger then
    match pyIndex lst s.i with
    | .error e => .error e
    | .ok nm =>
      match pyGetattr env s.d.config.pushbutton_state_triggered1 with
      | .error e => .error e
      | .ok b =>
        .ok { d := { s.d with
                      pb_trigger := if s.d.screensaver then s.d.pb_trigger else false,
                      curr_board := s.d.config.pushbutton_state_triggered1 },
              board := some b,
              i := s.i - 1,
              evs := s.evs ++ [Event.pbInfo s.d.config.pushbutton_state_triggered1 nm] }
  else .ok s

/-- `if data.mqtt_trigger:` block.  The log line subscripts `logLst`
(which is `data.config.boards_off_day` in all four loops, the mode's own
list only in `_off_day`). -/
def mqttBlock (env : BoardsEnv) (logLst : List String) (s : IterSt) : Except PyError IterSt :=
  if s.d.mqtt_trigger then
    match pyIndex logLst s.i with
    | .error e => .error e
    | .ok nm =>
      match pyGetattr env s.d.mqtt_showboard with
      | .error e => .error e
      | .ok b =>
        .ok { d := { s.d with
                      mqtt_trigger := if s.d.screensaver then s.d.mqtt_trigger else false,
                      curr_board := s.d.mqtt_showboard },
              board := some b,
              i := s.i - 1,
              evs := s.evs ++ [Event.mqttInfo s.d.mqtt_showboard nm] }
  else .ok s

/-- `if data.wx_alert_interrupt:` block: clear the flag, redirect to the
`wxalert` board, decrement the index. -/
def wxBlock (env : BoardsEnv) (s : IterSt) : Except PyError IterSt :=
  if s.d.wx_alert_interrupt then
    match pyGetattr env "wxalert" with
    | .error e => .error e
    | .ok b =>
      .ok { d := { s.d with wx_alert_interrupt := false, curr_board := "wxalert" },
            board := some b,
            i := s.i - 1,
            evs := s.evs ++ [Event.wxInfo] }
  else .ok s

/-- `if data.screensaver:` block (absent from `_intermission`).  When no
push-button trigger is pending it redirects to the screensaver board,
records the displaced board read from `prevLst[bord_index]`
(`data.config.boards_off_day` in all three loops that have this block)
and decrements the index; otherwise it only clears `pb_trigger`. -/
def ssBlock (env : BoardsEnv) (prevLst : List String) (s : IterSt) : Except PyError IterSt :=
  if s.d.screensaver then
    if s.d.pb_trigger then
      .ok { s with d := { s.d with pb_trigger := false } }
    else
      match pyGetattr env "screensaver" with
      | .error e => .error e
      | .ok b =>
        match pyIndex prevLst s.i with
        | .error e => .error e
        | .ok pv =>
          .ok { d := { s.d with curr_board := "screensaver", prev_board := pv },
                board := some b,
                i := s.i - 1,
                evs := s.evs ++ [Event.ssInfo] }
  else .ok s

/-- `if board: board(...)` / `else: debug.error("Board not found: ...")`.
`_off_day` logs a debug line (re-subscripting its list) before calling
the board (`dispDbg`). -/
def renderBlock (lst : List String) (dispDbg : Bool) (s : IterSt) : Except PyError IterSt :=
  match s.board with
  | some b =>
    if dispDbg then
      match pyIndex lst s.i with
      | .error e => .error e
      | .ok nm =>
        .ok { s with evs := s.evs ++ [Event.displayDebug nm, Event.render b] }
    else
      .ok { s with evs := s.evs ++ [Event.render b] }
  | none =>
    match pyIndex lst s.i with
    | .error e => .error e
    | .ok nm => .ok { s with evs := s.evs ++ [Event.boardNotFound nm] }

/-- End of the loop body: `return` when `bord_index >= len(lst) - 1`,
otherwise increment `bord_index` when at least one of the four interrupt
flags is clear (the source condition chains `or`, not `and`). -/
def endBlock (lst : List String) (s : IterSt) : IterResult :=
  if s.i ≥ (lst.length : Int) - 1 then
    { data := s.d, index := s.i, events := s.evs, done := true }
  else
    if !s.d.pb_trigger || !s.d.wx_alert_interrupt || !s.d.screensaver || !s.d.mqtt_trigger then
      { data := s.d, index := s.i + 1, events := s.evs, done := false }
    else
      { data := s.d, index := s.i, events := s.evs, done := false }

/-- The common shape of the four `while True` loop bodies, parameterized
by the points where the loops differ: `lst` is the mode's own board
list, `logLst` the list subscripted by the MQTT log line, `prevLst` the
list the screensaver block reads `prev_board` from, `topDbg`/`dispDbg`
whether the two extra debug logs of `_off_day` are present, and `useSS`
whether the loop has the screensaver block at all. -/
def loopIter (env : BoardsEnv) (lst logLst prevLst : List String)
    (topDbg dispDbg useSS : Bool) (d : Data) (i : Int) : Except PyError IterResult := do
  let s0 ← startBlock env lst topDbg d i
  let s1 ← pbBlock env lst s0
  let s2 ← mqttBlock env logLst s1
  let s3 ← wxBlock env s2
  let s4 ← if useSS then ssBlock env prevLst s3 else pure s3
  let s5 ← renderBlock lst dispDbg s4
  pure (endBlock lst s5)

/-- One pass of the `while True` body of `Boards._off_day`: driven by
`boards_off_day`, which is also the list its MQTT log line and its
screensaver block subscript; both extra debug logs present. -/
def offDayIter (env : BoardsEnv) (d : Data) (i : Int) : Except PyError IterResult :=
  loopIter env d.config.boards_off_day d.config.boards_off_day d.config.boards_off_day
    true true true d i

/-- One pass of the `while True` body of `Boards._scheduled`: driven by
`boards_scheduled`, but its MQTT log line and its screensaver block
subscript `boards_off_day`. -/
def scheduledIter (env : BoardsEnv) (d : Data) (i : Int) : Except PyError IterResult :=
  loopIter env d.config.boards_scheduled d.config.boards_off_day d.config.boards_off_day
    false false true d i

/-- One pass of the `while True` body of `Boards._intermission`: driven
by `boards_intermission`, MQTT log line subscripts `boards_off_day`, and
the screensaver block is commented out in the source. -/
def intermissionIter (env : BoardsEnv) (d : Data) (i : Int) : Except PyError IterResult :=
  loopIter env d.config.boards_intermission d.config.boards_off_day d.config.boards_off_day
    false false false d i

/-- One pass of the `while True` body of `Boards._post_game`: driven by
`boards_post_game`, but its MQTT log line and its screensaver block
subscript `boards_off_day`. -/
def postGameIter (env : BoardsEnv) (d : Data) (i : Int) : Except PyError IterResult :=
  loopIter env d.config.boards_post_game d.config.boards_off_day d.config.boards_off_day
    false false true d i

/-- The four rotation modes. -/
inductive ModeKind where
  | offDay
  | scheduled
  | intermission
  | postGame
deriving DecidableEq, Repr

/-- The board list that drives a given mode's loop. -/
def modeList : ModeKind → Config → List String
  | .offDay, c => c.boards_off_day
  | .scheduled, c => c.boards_scheduled
  | .intermission, c => c.boards_intermission
  | .postGame, c => c.boards_post_game

/-- One loop pass of the given mode. -/
def modeIter : ModeKind → BoardsEnv → Data → Int → Except PyError IterResult
  | .offDay => offDayIter
  | .scheduled => scheduledIter
  | .intermission => intermissionIter
  | .postGame => postGameIter

/-- The `while True` loop, driven by fuel: `.ok none` means the fuel ran
out before the loop returned, `.ok (some (d, evs))` that it returned. -/
def runRotation (step : Data → Int → Except PyError IterResult) :
    Nat → Data → Int → Except PyError (Option (Data × List Event))
  | 0, _, _ => .ok none
  | Nat.succ fuel, d, i =>
    match step d i with
    | .error e => .error e
    | .ok r =>
      if r.done then .ok (some (r.data, r.events))
      else
        match runRotation step fuel r.data r.index with
        | .error e => .error e
        | .ok none => .ok none
        | .ok (some (d2, evs)) => .ok (some (d2, r.events ++ evs))

/-- A full run of the given mode's loop, started at `bord_index = 0` in
the source. -/
def modeRun (m : ModeKind) (env : BoardsEnv) (fuel : Nat) (d : Data) (i : Int) :
    Except PyError (Option (Data × List Event)) :=
  runRotation (modeIter m env) fuel d i

/-- Names of the boards actually rendered, in call order. -/
def renderedBoards (evs : List Event) : List String :=
  evs.filterMap fun e => match e with | .render n => some n | _ => none

/-- Names logged by the `Board not found` error branch, in order. -/
def notFoundNames (evs : List Event) : List String :=
  evs.filterMap fun e => match e with | .boardNotFound n => some n | _ => none

/-- Boards rendered by one loop pass (empty when the pass raised). -/
def renderedOfIter (x : Except PyError IterResult) : List String :=
  match x with
  | .ok r => renderedBoards r.events
  | .error _ => []

/-- The next `bord_index` produced by one loop pass (`-99` on raise,
sentinel outside the reachable range). -/
def indexOfIter (x : Except PyError IterResult) : Int :=
  match x with
  | .ok r => r.index
  | .error _ => -99

/-- No interrupt flag is set. -/
def noFlags (d : Data) : Prop :=
  d.pb_trigger = false ∧ d.mqtt_trigger = false ∧
    d.wx_alert_interrupt = false ∧ d.screensaver = false

instance (d : Data) : Decidable (noFlags d) := by
  unfold noFlags; infer_instance

/-- Indicator of a flag, as an integer (for index arithmetic). -/
def b2i (b : Bool) : Int := if b then 1 else 0

/-- Number of interrupt flags the given mode honours that are set:
`_intermission` has no screensaver block, the other three modes honour
all four flags. -/
def honoredFlags : ModeKind → Data → Nat
  | .intermission, d =>
    (if d.pb_trigger then 1 else 0) + (if d.mqtt_trigger then 1 else 0) +
      (if d.wx_alert_interrupt then 1 else 0)
  | _, d =>
    (if d.pb_trigger then 1 else 0) + (if d.mqtt_trigger then 1 else 0) +
      (if d.wx_alert_interrupt then 1 else 0) + (if d.screensaver then 1 else 0)

/-- Observable effects of the instance cache and the legacy wrappers. -/
inductive CEvent where
  | createdLegacy (name : String)
  | usedCached (name : String)
  | failedLoad (name : String)
  | cleanupCalled (name : String)
  | clearedOne (name : String)
  | clearedAll
  | rendered (name : String)
deriving DecidableEq, Repr

/-- A board class, as the cache sees it: whether its constructor
succeeds, and whether its instances define a `cleanup` attribute. -/
structure BoardClass where
  ctorOk : Bool
  hasCleanup : Bool
deriving DecidableEq, Repr

/-- The `_board_instances` dict plus an allocation counter; instance
identity is modelled by the allocation number. -/
structure CacheState where
  instances : List (String × Nat)
  nextId : Nat
deriving DecidableEq, Repr

/-- Python dict assignment `d[k] = v`. -/
def dictSet (l : List (String × Nat)) (k : String) (v : Nat) : List (String × Nat) :=
  (k, v) :: l.filter fun p => !(p.1 == k)

/-- Python dict deletion `del d[k]`. -/
def dictDel (l : List (String × Nat)) (k : String) : List (String × Nat) :=
  l.filter fun p => !(p.1 == k)

/-- `Boards._get_cached_board_instance`: construct on first access
(catching any constructor exception, logging, and returning `None`),
reuse the cached instance afterwards. -/
def getCachedBoardInstance (st : CacheState) (board_name : String)
    (board_class : BoardClass) : Option Nat × CacheState × List CEvent :=
  match st.instances.lookup board_name with
  | none =>
    if board_class.ctorOk then
      let st2 : CacheState :=
        { instances := dictSet st.instances board_name st.nextId, nextId := st.nextId + 1 }
      (st2.instances.lookup board_name, st2, [CEvent.createdLegacy board_name])
    else
      (none, st, [CEvent.failedLoad board_name])
  | some inst => (some inst, st, [CEvent.usedCached board_name])

/-- `Boards.clear_board_cache`: evict one cached instance (calling its
`cleanup` hook if the class defines one) or evict them all. -/
def clearBoardCache (st : CacheState) (board_name : Option String)
    (hasCleanupOf : String → Bool) : CacheState × List CEvent :=
  match board_name with
  | some name =>
    match st.instances.lookup name with
    | some _ =>
      ({ st with instances := dictDel st.instances name },
        (if hasCleanupOf name then [CEvent.cleanupCalled name] else []) ++
          [CEvent.clearedOne name])
    | none => (st, [])
  | none =>
    ({ st with instances := [] },
      ((st.instances.filter fun p => hasCleanupOf p.1).map fun p =>
          CEvent.cleanupCalled p.1) ++ [CEvent.clearedAll])

/-- A legacy wrapper method such as `Boards.scoreticker`: fetch the
cached instance and call `.render()` on the result unconditionally —
when the cache returned `None` this raises `AttributeError`. -/
def legacyWrapper (st : CacheState) (board_name : String) (board_class : BoardClass) :
    Except PyError (CacheState × List CEvent) :=
  match getCachedBoardInstance st board_name board_class with
  | (some _, st2, evs) => .ok (st2, evs ++ [CEvent.rendered board_name])
  | (none, _, _) => .error .attributeError

/-- `Boards.scoreticker`. -/
def scoreticker (st : CacheState) (cls : BoardClass) :
    Except PyError (CacheState × List CEvent) :=
  legacyWrapper st "scoreticker" cls

/-- Observable effects of discovery and module loading. -/
inductive LEvent where
  | noDirectory (dirName : String)
  | missingManifest (name : String)
  | invalidJson (name : String)
  | disabled (name : String)
  | pythonReqDebug (name : String) (req : String)
  | appVersionDebug (name : String) (req : String)
  | depAvailable (name : String) (pkg : String)
  | depMissing (name : String) (dep : String)
  | requirementsNotMet (name : String)
  | noBoards (name : String)
  | configMissingIdOrClass (name : String)
  | importFailed (path : String)
  | classNotFound (cls : String) (path : String)
  | notSubclass (cls : String)
  | registered (id : String)
deriving DecidableEq, Repr

/-- The `requirements` object of a `plugin.json` manifest; absent keys
are `none`. -/
structure Requirements where
  python : Option String
  app_version : Option String
  python_dependencies : Option (List String)
deriving DecidableEq, Repr

/-- One entry of the manifest's `boards` list, keys absent when the dict
lacks them (`module` defaults to `"board"` at use site). -/
structure BoardCfg where
  id : Option String
  class_name : Option String
  module : Option String
deriving DecidableEq, Repr

/-- A parsed `plugin.json` (with `enabled` defaulting to true and absent
sub-objects defaulted, as `metadata.get` does). -/
structure Metadata where
  enabled : Bool
  requirements : Requirements
  boards : List BoardCfg
deriving DecidableEq, Repr

/-- The state of a board directory's manifest file on disk. -/
inductive ManifestFile where
  | missing
  | malformed
  | ok (m : Metadata)
deriving DecidableEq, Repr

/-- The import machinery and class inspection as the loader probes them. -/
structure LoadEnv where
  importable : String → Bool
  hasClass : String → String → Bool
  validSubclass : String → String → Bool

/-- Python truthiness of `metadata.get(...)` results used as strings. -/
def pyTruthy (o : Option String) : Bool :=
  match o with
  | none => false
  | some s => !(s == "")

/-- Character-level prefix test (Lean's `String.startsWith` does not
reduce inside the kernel, so splitting is modelled on the underlying
character lists). -/
def startsWithChars : List Char → List Char → Bool
  | [], _ => true
  | _ :: _, [] => false
  | p :: ps, c :: cs => p == c && startsWithChars ps cs

/-- The characters before the first occurrence of `pat` (the whole list
when `pat` does not occur): the `[0]` component of a Python `split`. -/
def takeBefore (pat : List Char) : List Char → List Char
  | [] => []
  | c :: rest => if startsWithChars pat (c :: rest) then [] else c :: takeBefore pat rest

/-- Python `str.strip` whitespace. -/
def isSpaceChar (c : Char) : Bool := c == ' ' || c == '\t' || c == '\n' || c == '\r'

/-- Python `str.strip`. -/
def stripChars (l : List Char) : List Char :=
  ((l.dropWhile isSpaceChar).reverse.dropWhile isSpaceChar).reverse

/-- Package-name extraction from a dependency specifier:
`dep.split('>=')[0].split('==')[0].split('<')[0].strip()`. -/
def pkgName (dep : String) : String :=
  String.mk (stripChars (takeBefore ['<']
    (takeBefore ['=', '='] (takeBefore ['>', '='] dep.data))))

/-- Python `name.startswith('_')` (character-level, see above). -/
def pyUnderscoreFirst (s : String) : Bool :=
  match s.data with
  | [] => false
  | c :: _ => c == '_' 

/-- The dependency loop of `_validate_requirements`: probe each declared
dependency with `importlib.import_module`, failing fast with an
error-level log naming the unmet dependency. -/
def checkDeps (env : LoadEnv) (plugin : String) : List String → Bool × List LEvent
  | [] => (true, [])
  | dep :: rest =>
    if env.importable (pkgName dep) then
      let r := checkDeps env plugin rest
      (r.1, LEvent.depAvailable plugin (pkgName dep) :: r.2)
    else
      (false, [LEvent.depMissing plugin dep])

/-- `Boards._validate_requirements`: the Python and app-version entries
are logged but advisory; only the dependency probe can fail. -/
def validateRequirements (env : LoadEnv) (req : Requirements) (plugin : String) :
    Bool × List LEvent :=
  let e1 : List LEvent :=
    match req.python with
    | some p => [LEvent.pythonReqDebug plugin p]
    | none => []
  let e2 : List LEvent :=
    match req.app_version with
    | some v => [LEvent.appVersionDebug plugin v]
    | none => []
  match req.python_dependencies with
  | none => (true, e1 ++ e2)
  | some deps =>
    let r := checkDeps env plugin deps
    (r.1, e1 ++ e2 ++ r.2)

/-- `Boards._load_board_from_metadata`: import the declared module,
fetch the declared class, check it is a proper `BoardBase` subclass, and
register the board id. -/
def loadBoardFromMetadata (env : LoadEnv) (bc : BoardCfg)
    (directory_name plugin_name : String) : Option String × List LEvent :=
  let module_short := bc.module.getD "board"
  if pyTruthy bc.id && pyTruthy bc.class_name then
    let bid := bc.id.getD ""
    let cls := bc.class_name.getD ""
    let path := "boards." ++ directory_name ++ "." ++ plugin_name ++ "." ++ module_short
    if env.importable path then
      if env.hasClass path cls then
        if env.validSubclass path cls then
          (some bid, [LEvent.registered bid])
        else (none, [LEvent.notSubclass cls])
      else (none, [LEvent.classNotFound cls path])
    else (none, [LEvent.importFailed path])
  else
    (none, [LEvent.configMissingIdOrClass plugin_name])

/-- `Boards._load_single_board`: manifest presence and parse, the
`enabled` gate, the module-level requirements gate, then per-board
loading of every declared entry.  Returns the registered board ids and
the emitted log events. -/
def loadSingleBoard (env : LoadEnv) (board_name : String) (mf : ManifestFile)
    (directory_name : String) : List String × List LEvent :=
  match mf with
  | .missing => ([], [LEvent.missingManifest board_name])
  | .malformed => ([], [LEvent.invalidJson board_name])
  | .ok md =>
    if !md.enabled then ([], [LEvent.disabled board_name])
    else
      let vr := validateRequirements env md.requirements board_name
      if !vr.1 then ([], vr.2 ++ [LEvent.requirementsNotMet board_name])
      else if md.boards.isEmpty then ([], vr.2 ++ [LEvent.noBoards board_name])
      else
        let per := md.boards.map fun bc =>
          loadBoardFromMetadata env bc directory_name board_name
        (per.filterMap Prod.fst, vr.2 ++ per.flatMap Prod.snd)

/-- One entry of `Path.iterdir()`. -/
structure DirEntry where
  name : String
  isDir : Bool
deriving DecidableEq, Repr

/-- The filesystem as discovery probes it. -/
structure FsEnv where
  rootExists : String → Bool
  entries : String → List DirEntry
  manifest : String → String → ManifestFile
  loadEnv : LoadEnv

/-- `Boards._load_boards_from_directory`: skip a missing root, then for
each immediate entry skip non-directories and names starting with `_`,
loading the rest in `iterdir` order.  Returns the `(root, name)` pairs
processed in order, the registered board ids and the events. -/
def loadBoardsFromDirectory (fs : FsEnv) (directory_name : String) :
    List (String × String) × List String × List LEvent :=
  if !fs.rootExists directory_name then
    ([], [], [LEvent.noDirectory directory_name])
  else
    let cands := (fs.entries directory_name).filter fun e =>
      e.isDir && !(pyUnderscoreFirst e.name)
    let per := cands.map fun e =>
      ((directory_name, e.name),
        loadSingleBoard fs.loadEnv e.name (fs.manifest directory_name e.name) directory_name)
    (per.map Prod.fst, per.flatMap fun p => p.2.1, per.flatMap fun p => p.2.2)

/-- `Boards._load_boards`: the plugins root is scanned first, the
builtins root second. -/
def loadBoards (fs : FsEnv) : List (String × String) × List String × List LEvent :=
  let p := loadBoardsFromDirectory fs "plugins"
  let b := loadBoardsFromDirectory fs "builtins"
  (p.1 ++ b.1, p.2.1 ++ b.2.1, p.2.2 ++ b.2.2)

/-- Total index decrement one loop pass applies for the interrupt flags
set in `d` (derived bookkeeping: push-button, MQTT and weather-alert
blocks each decrement when their flag is set; the screensaver block,
when present, decrements when the screensaver flag is set and no
push-button trigger is pending). -/
def decsB (useSS : Bool) (d : Data) : Int :=
  b2i d.pb_trigger + b2i d.mqtt_trigger + b2i d.wx_alert_interrupt +
    (if useSS then b2i (d.screensaver && !d.pb_trigger) else 0)

/-- The `board` local variable after the interrupt checks of one pass:
each later check overrides the value left by the earlier ones, and the
screensaver redirect fires only when no push-button trigger is pending. -/
def chosenB (useSS : Bool) (env : BoardsEnv) (d : Data) (top : String) : Option String :=
  let b0 := pyGetattrOpt env top
  let b1 := if d.pb_trigger then some d.config.pushbutton_state_triggered1 else b0
  let b2 := if d.mqtt_trigger then some d.mqtt_showboard else b1
  let b3 := if d.wx_alert_interrupt then some "wxalert" else b2
  if useSS && d.screensaver && !d.pb_trigger then some "screensaver" else b3

/-- Whether a mode's loop contains the screensaver block. -/
def modeUsesSS : ModeKind → Bool
  | .intermission => false
  | _ => true

/-- A concrete `Boards` attribute environment for witnesses: the listed
names resolve to board handlers, everything else does not. -/
def exEnv : BoardsEnv :=
  ⟨fun n => ["scoreticker", "clock", "standings", "weather", "team_summary",
    "wxalert", "screensaver", "pbboard", "mqttboard"].contains n⟩

/-- A concrete configuration for witnesses. -/
def exCfg : Config :=
  { boards_off_day := ["scoreticker", "clock", "standings", "weather", "team_summary"],
    boards_scheduled := ["team_summary", "scoreticker", "standings", "clock", "weather"],
    boards_intermission := ["scoreticker", "clock", "standings", "weather", "team_summary"],
    boards_post_game := ["standings", "scoreticker", "clock", "weather", "team_summary"],
    pushbutton_state_triggered1 := "pbboard" }

/-- Witness data with no interrupt flag set. -/
def noFlagsData : Data :=
  { config := exCfg, pb_trigger := false, mqtt_trigger := false,
    wx_alert_interrupt := false, screensaver := false,
    mqtt_showboard := "mqttboard", curr_board := "", prev_board := "" }

/-- Witness data with only the screensaver flag set. -/
def ssOnlyData : Data :=
  { config := exCfg, pb_trigger := false, mqtt_trigger := false,
    wx_alert_interrupt := false, screensaver := true,
    mqtt_showboard := "mqttboard", curr_board := "", prev_board := "" }

/-- Witness data with all four interrupt flags set. -/
def allFlagsData : Data :=
  { config := exCfg, pb_trigger := true, mqtt_trigger := true,
    wx_alert_interrupt := true, screensaver := true,
    mqtt_showboard := "mqttboard", curr_board := "", prev_board := "" }

/-- `prev_board` recorded by one loop pass (empty string on raise). -/
def prevBoardOfIter (x : Except PyError IterResult) : String :=
  match x with
  | .ok r => r.data.prev_board
  | .error _ => ""

/-- Number of constructor invocations recorded in a cache event list. -/
def countCreated (evs : List CEvent) : Nat :=
  (evs.filter fun e => match e with | CEvent.createdLegacy _ => true | _ => false).length

/-- An empty instance cache. -/
def emptyCache : CacheState := { instances := [], nextId := 0 }

/-- A board class whose constructor raises. -/
def failingCls : BoardClass := { ctorOk := false, hasCleanup := false }

/-- A board class whose constructor succeeds and that defines `cleanup`. -/
def okCls : BoardClass := { ctorOk := true, hasCleanup := true }

/-- A witness environment in which `standings` does not resolve. -/
def exEnvNoStandings : BoardsEnv :=
  ⟨fun n => ["scoreticker", "clock", "weather", "team_summary",
    "wxalert", "screensaver", "pbboard", "mqttboard"].contains n⟩

/-- A configuration whose board lists are all empty. -/
def emptyCfg : Config :=
  { boards_off_day := [], boards_scheduled := [], boards_intermission := [],
    boards_post_game := [], pushbutton_state_triggered1 := "pbboard" }

/-- Witness data over the empty configuration, no flags set. -/
def emptyData : Data :=
  { config := emptyCfg, pb_trigger := false, mqtt_trigger := false,
    wx_alert_interrupt := false, screensaver := false,
    mqtt_showboard := "mqttboard", curr_board := "", prev_board := "" }

/-- A witness manifest declaring one dependency and one board. -/
def depsMeta : Metadata :=
  { enabled := true,
    requirements := { python := none, app_version := none,
                      python_dependencies := some ["holidays>=0.35"] },
    boards := [{ id := some "holiday", class_name := some "HolidayBoard",
                 module := none }] }

/-- A witness import environment in which `holidays` is not installed. -/
def noHolidaysEnv : LoadEnv :=
  { importable := fun p => !(p == "holidays"),
    hasClass := fun _ _ => true,
    validSubclass := fun _ _ => true }

/-- A witness filesystem with one plugin directory (plus one reserved and
one non-directory entry) and one builtin directory. -/
def twoRootFs : FsEnv :=
  { rootExists := fun r => r == "plugins" || r == "builtins",
    entries := fun r =>
      if r == "plugins" then
        [{ name := "p1", isDir := true }, { name := "_private", isDir := true },
         { name := "stray.txt", isDir := false }]
      else if r == "builtins" then [{ name := "b1", isDir := true }]
      else [],
    manifest := fun _ _ => ManifestFile.missing,
    loadEnv := { importable := fun _ => true, hasClass := fun _ _ => true,
                 validSubclass := fun _ _ => true } }

theorem exceptOkBind {α β ε : Type} (a : α) (f : α → Except ε β) :
    (Except.ok a : Except ε α) >>= f = f a := rfl

theorem exceptPureEq {α ε : Type} (a : α) : (pure a : Except ε α) = Except.ok a := rfl

theorem b2i_nonneg (b : Bool) : 0 ≤ b2i b := by cases b <;> simp [b2i]

theorem b2i_le_one (b : Bool) : b2i b ≤ 1 := by cases b <;> simp [b2i]

theorem b2i_false : b2i false = 0 := rfl

theorem b2i_true : b2i true = 1 := rfl

theorem pyIndex_ok_of_range (l : List String) (i : Int) (h0 : 0 ≤ i)
    (h1 : i < (l.length : Int)) : ∃ nm, pyIndex l i = .ok nm := by
  have hneg : ¬ i < 0 := by omega
  have hlt : i.toNat < l.length := by omega
  rcases h : l.get? i.toNat with _ | nm
  · exact absurd (List.get?_eq_none.mp h) (by omega)
  · rw [List.get?_eq_getElem?] at h
    exact ⟨nm, by simp [pyIndex, hneg, h]⟩

theorem pyIndex_natCast (l : List String) (k : Nat) (hk : k < l.length) :
    pyIndex l (k : Int) = .ok (l.get ⟨k, hk⟩) := by
  have hneg : ¬ (k : Int) < 0 := by omega
  simp [pyIndex, hneg, List.getElem?_eq_getElem hk]

theorem pyIndex_nil (i : Int) (h0 : 0 ≤ i) : pyIndex [] i = .error .indexError := by
  have hneg : ¬ i < 0 := by omega
  simp [pyIndex, hneg]

theorem renderedBoards_append (a b : List Event) :
    renderedBoards (a ++ b) = renderedBoards a ++ renderedBoards b := by
  simp [renderedBoards]

theorem notFoundNames_append (a b : List Event) :
    notFoundNames (a ++ b) = notFoundNames a ++ notFoundNames b := by
  simp [notFoundNames]

theorem startBlock_eq (env : BoardsEnv) (lst : List String) (topDbg : Bool)
    (d : Data) (i : Int) (nm : String) (h : pyIndex lst i = .ok nm) :
    startBlock env lst topDbg d i =
      .ok { d := { d with curr_board := nm }, board := pyGetattrOpt env nm, i := i,
            evs := if topDbg then [Event.topDebug i nm] else [] } := by
  cases topDbg <;> simp [startBlock, h]

theorem pbBlock_proj (env : BoardsEnv) (lst : List String) (s : IterSt)
    (hrange : s.d.pb_trigger = true → 0 ≤ s.i ∧ s.i < (lst.length : Int))
    (hres : s.d.pb_trigger = true →
      env.resolvable s.d.config.pushbutton_state_triggered1 = true) :
    ∃ t, pbBlock env lst s = .ok t ∧
      t.d.config = s.d.config ∧
      t.d.mqtt_showboard = s.d.mqtt_showboard ∧
      t.d.pb_trigger = (s.d.pb_trigger && s.d.screensaver) ∧
      t.d.mqtt_trigger = s.d.mqtt_trigger ∧
      t.d.wx_alert_interrupt = s.d.wx_alert_interrupt ∧
      t.d.screensaver = s.d.screensaver ∧
      t.i = s.i - b2i s.d.pb_trigger ∧
      t.board = (if s.d.pb_trigger then some s.d.config.pushbutton_state_triggered1
                 else s.board) ∧
      renderedBoards t.evs = renderedBoards s.evs ∧
      notFoundNames t.evs = notFoundNames s.evs := by
  cases hpb : s.d.pb_trigger with
  | false =>
    exact ⟨s, by simp [pbBlock, hpb], rfl, rfl, by simp [hpb], rfl, rfl, rfl,
      by simp [hpb, b2i], by simp [hpb], rfl, rfl⟩
  | true =>
    obtain ⟨h0, h1⟩ := hrange hpb
    obtain ⟨nm, hnm⟩ := pyIndex_ok_of_range lst s.i h0 h1
    have hg : pyGetattr env s.d.config.pushbutton_state_triggered1 =
        .ok s.d.config.pushbutton_state_triggered1 := by
      simp [pyGetattr, hres hpb]
    refine ⟨{ d := { s.d with
                pb_trigger := if s.d.screensaver then s.d.pb_trigger else false,
                curr_board := s.d.config.pushbutton_state_triggered1 },
              board := some s.d.config.pushbutton_state_triggered1,
              i := s.i - 1,
              evs := s.evs ++ [Event.pbInfo s.d.config.pushbutton_state_triggered1 nm] },
      ?_, rfl, rfl, ?_, rfl, rfl, rfl, ?_, ?_, ?_, ?_⟩
    · simp [pbBlock, hpb, hnm, hg]
    · cases s.d.screensaver <;> simp [hpb]
    · simp [hpb, b2i]
    · simp [hpb]
    · simp [renderedBoards_append, renderedBoards]
    · simp [notFoundNames_append, notFoundNames]

theorem mqttBlock_proj (env : BoardsEnv) (logLst : List String) (s : IterSt)
    (hrange : s.d.mqtt_trigger = true → 0 ≤ s.i ∧ s.i < (logLst.length : Int))
    (hres : s.d.mqtt_trigger = true → env.resolvable s.d.mqtt_showboard = true) :
    ∃ t, mqttBlock env logLst s = .ok t ∧
      t.d.config = s.d.config ∧
      t.d.mqtt_showboard = s.d.mqtt_showboard ∧
      t.d.pb_trigger = s.d.pb_trigger ∧
      t.d.mqtt_trigger = (s.d.mqtt_trigger && s.d.screensaver) ∧
      t.d.wx_alert_interrupt = s.d.wx_alert_interrupt ∧
      t.d.screensaver = s.d.screensaver ∧
      t.i = s.i - b2i s.d.mqtt_trigger ∧
      t.board = (if s.d.mqtt_trigger then some s.d.mqtt_showboard else s.board) ∧
      renderedBoards t.evs = renderedBoards s.evs ∧
      notFoundNames t.evs = notFoundNames s.evs := by
  cases hmq : s.d.mqtt_trigger with
  | false =>
    exact ⟨s, by simp [mqttBlock, hmq], rfl, rfl, rfl, by simp [hmq], rfl, rfl,
      by simp [hmq, b2i], by simp [hmq], rfl, rfl⟩
  | true =>
    obtain ⟨h0, h1⟩ := hrange hmq
    obtain ⟨nm, hnm⟩ := pyIndex_ok_of_range logLst s.i h0 h1
    have hg : pyGetattr env s.d.mqtt_showboard = .ok s.d.mqtt_showboard := by
      simp [pyGetattr, hres hmq]
    refine ⟨{ d := { s.d with
                mqtt_trigger := if s.d.screensaver then s.d.mqtt_trigger else false,
                curr_board := s.d.mqtt_showboard },
              board := some s.d.mqtt_showboard,
              i := s.i - 1,
              evs := s.evs ++ [Event.mqttInfo s.d.mqtt_showboard nm] },
      ?_, rfl, rfl, rfl, ?_, rfl, rfl, ?_, ?_, ?_, ?_⟩
    · simp [mqttBlock, hmq, hnm, hg]
    · cases s.d.screensaver <;> simp [hmq]
    · simp [hmq, b2i]
    · simp [hmq]
    · simp [renderedBoards_append, renderedBoards]
    · simp [notFoundNames_append, notFoundNames]

theorem wxBlock_proj (env : BoardsEnv) (s : IterSt)
    (hres : s.d.wx_alert_interrupt = true → env.resolvable "wxalert" = true) :
    ∃ t, wxBlock env s = .ok t ∧
      t.d.config = s.d.config ∧
      t.d.mqtt_showboard = s.d.mqtt_showboard ∧
      t.d.pb_trigger = s.d.pb_trigger ∧
      t.d.mqtt_trigger = s.d.mqtt_trigger ∧
      t.d.wx_alert_interrupt = false ∧
      t.d.screensaver = s.d.screensaver ∧
      t.i = s.i - b2i s.d.wx_alert_interrupt ∧
      t.board = (if s.d.wx_alert_interrupt then some "wxalert" else s.board) ∧
      renderedBoards t.evs = renderedBoards s.evs ∧
      notFoundNames t.evs = notFoundNames s.evs := by
  cases hwx : s.d.wx_alert_interrupt with
  | false =>
    exact ⟨s, by simp [wxBlock, hwx], rfl, rfl, rfl, rfl, hwx, rfl,
      by simp [hwx, b2i], by simp [hwx], rfl, rfl⟩
  | true =>
    have hg : pyGetattr env "wxalert" = .ok "wxalert" := by
      simp [pyGetattr, hres hwx]
    refine ⟨{ d := { s.d with wx_alert_interrupt := false, curr_board := "wxalert" },
              board := some "wxalert",
              i := s.i - 1,
              evs := s.evs ++ [Event.wxInfo] },
      ?_, rfl, rfl, rfl, rfl, rfl, rfl, ?_, ?_, ?_, ?_⟩
    · simp [wxBlock, hwx, hg]
    · simp [hwx, b2i]
    · simp [hwx]
    · simp [renderedBoards_append, renderedBoards]
    · simp [notFoundNames_append, notFoundNames]

theorem ssBlock_proj (env : BoardsEnv) (prevLst : List String) (s : IterSt)
    (hrange : s.d.screensaver = true → s.d.pb_trigger = false →
      0 ≤ s.i ∧ s.i < (prevLst.length : Int))
    (hres : s.d.screensaver = true → s.d.pb_trigger = false →
      env.resolvable "screensaver" = true) :
    ∃ t, ssBlock env prevLst s = .ok t ∧
      t.d.config = s.d.config ∧
      t.d.mqtt_showboard = s.d.mqtt_showboard ∧
      t.d.pb_trigger = (if s.d.screensaver then false else s.d.pb_trigger) ∧
      t.d.mqtt_trigger = s.d.mqtt_trigger ∧
      t.d.wx_alert_interrupt = s.d.wx_alert_interrupt ∧
      t.d.screensaver = s.d.screensaver ∧
      t.i = s.i - b2i (s.d.screensaver && !s.d.pb_trigger) ∧
      t.board = (if s.d.screensaver && !s.d.pb_trigger then some "screensaver"
                 else s.board) ∧
      renderedBoards t.evs = renderedBoards s.evs ∧
      notFoundNames t.evs = notFoundNames s.evs := by
  cases hss : s.d.screensaver with
  | false =>
    exact ⟨s, by simp [ssBlock, hss], rfl, rfl, by simp [hss], rfl, rfl, hss,
      by simp [hss, b2i], by simp [hss], rfl, rfl⟩
  | true =>
    cases hpb : s.d.pb_trigger with
    | true =>
      refine ⟨{ s with d := { s.d with pb_trigger := false } },
        ?_, rfl, rfl, ?_, rfl, rfl, hss, ?_, ?_, rfl, rfl⟩
      · simp [ssBlock, hss, hpb]
      · simp [hss]
      · simp [hss, hpb, b2i]
      · simp [hss, hpb]
    | false =>
      have hg : pyGetattr env "screensaver" = .ok "screensaver" := by
        simp [pyGetattr, hres hss hpb]
      obtain ⟨h0, h1⟩ := hrange hss hpb
      obtain ⟨pv, hpv⟩ := pyIndex_ok_of_range prevLst s.i h0 h1
      refine ⟨{ d := { s.d with curr_board := "screensaver", prev_board := pv },
                board := some "screensaver",
                i := s.i - 1,
                evs := s.evs ++ [Event.ssInfo] },
        ?_, rfl, rfl, ?_, rfl, rfl, hss, ?_, ?_, ?_, ?_⟩
      · simp [ssBlock, hss, hpb, hg, hpv]
      · simp [hss, hpb]
      · simp [hss, hpb, b2i]
      · simp [hss, hpb]
      · simp [renderedBoards_append, renderedBoards]
      · simp [notFoundNames_append, notFoundNames]

theorem renderBlock_proj (lst : List String) (dispDbg : Bool) (s : IterSt)
    (h0 : 0 ≤ s.i) (h1 : s.i < (lst.length : Int)) :
    ∃ t, renderBlock lst dispDbg s = .ok t ∧
      t.d = s.d ∧ t.i = s.i ∧
      renderedBoards t.evs =
        renderedBoards s.evs ++ (match s.board with | some b => [b] | none => []) ∧
      notFoundNames t.evs =
        notFoundNames s.evs ++ (match s.board with
                                | some _ => []
                                | none => [(pyIndex lst s.i).toOption.getD ""]) := by
  obtain ⟨nm, hnm⟩ := pyIndex_ok_of_range lst s.i h0 h1
  cases hb : s.board with
  | some b =>
    cases dispDbg with
    | false =>
      refine ⟨{ s with evs := s.evs ++ [Event.render b] }, ?_, rfl, rfl, ?_, ?_⟩
      · simp [renderBlock, hb]
      · simp [renderedBoards_append, renderedBoards]
      · simp [notFoundNames_append, notFoundNames]
    | true =>
      refine ⟨{ s with evs := s.evs ++ [Event.displayDebug nm, Event.render b] },
        ?_, rfl, rfl, ?_, ?_⟩
      · simp [renderBlock, hb, hnm]
      · simp [renderedBoards_append, renderedBoards]
      · simp [notFoundNames_append, notFoundNames]
  | none =>
    refine ⟨{ s with evs := s.evs ++ [Event.boardNotFound nm] }, ?_, rfl, rfl, ?_, ?_⟩
    · simp [renderBlock, hb, hnm]
    · simp [renderedBoards_append, renderedBoards]
    · simp [notFoundNames_append, notFoundNames, hnm, Except.toOption]

theorem endBlock_done (lst : List String) (s : IterSt)
    (h : s.i ≥ (lst.length : Int) - 1) :
    endBlock lst s = { data := s.d, index := s.i, events := s.evs, done := true } := by
  simp [endBlock, h]

theorem endBlock_cont (lst : List String) (s : IterSt)
    (h : ¬ s.i ≥ (lst.length : Int) - 1) (hwx : s.d.wx_alert_interrupt = false) :
    endBlock lst s = { data := s.d, index := s.i + 1, events := s.evs, done := false } := by
  simp [endBlock, h, hwx]

theorem ssDecEq (pb ss : Bool) : b2i (ss && !(pb && ss)) = b2i (ss && !pb) := by
  cases pb <;> cases ss <;> rfl

theorem decsB_nonneg_le (u : Bool) (d : Data) : 0 ≤ decsB u d ∧ decsB u d ≤ 3 := by
  unfold decsB b2i
  cases d.pb_trigger <;> cases d.mqtt_trigger <;> cases d.wx_alert_interrupt <;>
    cases d.screensaver <;> cases u <;> norm_num

theorem loopIter_char (env : BoardsEnv) (lst logLst prevLst : List String)
    (topDbg dispDbg useSS : Bool) (d : Data) (i : Int)
    (hi : 3 ≤ i) (hlen : i < (lst.length : Int))
    (hlog : d.mqtt_trigger = true → i < (logLst.length : Int))
    (hprev : useSS = true → d.screensaver = true → d.pb_trigger = false →
      i < (prevLst.length : Int))
    (hpbres : d.pb_trigger = true →
      env.resolvable d.config.pushbutton_state_triggered1 = true)
    (hmqres : d.mqtt_trigger = true → env.resolvable d.mqtt_showboard = true)
    (hwxres : d.wx_alert_interrupt = true → env.resolvable "wxalert" = true)
    (hssres : useSS = true → d.screensaver = true → d.pb_trigger = false →
      env.resolvable "screensaver" = true) :
    ∃ r top, pyIndex lst i = .ok top ∧
      loopIter env lst logLst prevLst topDbg dispDbg useSS d i = .ok r ∧
      r.index = (if i - decsB useSS d ≥ (lst.length : Int) - 1 then i - decsB useSS d
                 else i - decsB useSS d + 1) ∧
      r.done = decide (i - decsB useSS d ≥ (lst.length : Int) - 1) ∧
      renderedBoards r.events =
        (match chosenB useSS env d top with | some b => [b] | none => []) := by
  obtain ⟨top, htop⟩ := pyIndex_ok_of_range lst i (by omega) hlen
  have h0 := startBlock_eq env lst topDbg d i top htop
  obtain ⟨s1, h1, e1cfg, e1show, e1pb, e1mq, e1wx, e1ss, e1i, e1b, e1r, e1n⟩ :=
    pbBlock_proj env lst
      { d := { d with curr_board := top }, board := pyGetattrOpt env top, i := i,
        evs := if topDbg then [Event.topDebug i top] else [] }
      (fun _ => ⟨show (0 : Int) ≤ i by omega, hlen⟩)
      (fun hpb => hpbres hpb)
  simp only at e1cfg e1show e1pb e1mq e1wx e1ss e1i e1b
  have hpb0 := b2i_nonneg d.pb_trigger
  have hpb1 := b2i_le_one d.pb_trigger
  have hmq0 := b2i_nonneg d.mqtt_trigger
  have hmq1 := b2i_le_one d.mqtt_trigger
  have hwx0 := b2i_nonneg d.wx_alert_interrupt
  have hwx1 := b2i_le_one d.wx_alert_interrupt
  obtain ⟨s2, h2, e2cfg, e2show, e2pb, e2mq, e2wx, e2ss, e2i, e2b, e2r, e2n⟩ :=
    mqttBlock_proj env logLst s1
      (fun h => by
        have hm : d.mqtt_trigger = true := by rw [e1mq] at h; exact h
        have := hlog hm
        constructor
        · rw [e1i]; omega
        · rw [e1i]; omega)
      (fun h => by
        have hm : d.mqtt_trigger = true := by rw [e1mq] at h; exact h
        rw [e1show]; exact hmqres hm)
  obtain ⟨s3, h3, e3cfg, e3show, e3pb, e3mq, e3wx, e3ss, e3i, e3b, e3r, e3n⟩ :=
    wxBlock_proj env s2
      (fun h => by
        have hw : d.wx_alert_interrupt = true := by rw [e2wx, e1wx] at h; exact h
        exact hwxres hw)
  have a3pb : s3.d.pb_trigger = (d.pb_trigger && d.screensaver) := by
    rw [e3pb, e2pb, e1pb]
  have a3mq : s3.d.mqtt_trigger = (d.mqtt_trigger && d.screensaver) := by
    rw [e3mq, e2mq, e1mq, e1ss]
  have a3ss : s3.d.screensaver = d.screensaver := by rw [e3ss, e2ss, e1ss]
  have a3i : s3.i = i - b2i d.pb_trigger - b2i d.mqtt_trigger -
      b2i d.wx_alert_interrupt := by
    rw [e3i, e2i, e1i, e1mq, e2wx, e1wx]
  have hSS : ∃ s4, (if useSS then ssBlock env prevLst s3 else pure s3) = .ok s4 ∧
      s4.d.wx_alert_interrupt = s3.d.wx_alert_interrupt ∧
      s4.i = s3.i - (if useSS then b2i (s3.d.screensaver && !s3.d.pb_trigger) else 0) ∧
      s4.board = (if useSS && s3.d.screensaver && !s3.d.pb_trigger
                  then some "screensaver" else s3.board) ∧
      renderedBoards s4.evs = renderedBoards s3.evs := by
    cases hu : useSS with
    | false => exact ⟨s3, by simp [exceptPureEq], rfl, by simp, by simp, rfl⟩
    | true =>
      obtain ⟨s4, h4, g4cfg, g4show, g4pb, g4mq, g4wx, g4ss, g4i, g4b, g4r, g4n⟩ :=
        ssBlock_proj env prevLst s3
          (fun hss hpb => by
            have hsd : d.screensaver = true := by rw [a3ss] at hss; exact hss
            have hpd : d.pb_trigger = false := by
              rw [a3pb] at hpb
              cases hp : d.pb_trigger
              · rfl
              · rw [hp, hsd] at hpb; exact absurd hpb (by simp)
            have := hprev hu hsd hpd
            constructor
            · rw [a3i]; omega
            · rw [a3i]; omega)
          (fun hss hpb => by
            have hsd : d.screensaver = true := by rw [a3ss] at hss; exact hss
            have hpd : d.pb_trigger = false := by
              rw [a3pb] at hpb
              cases hp : d.pb_trigger
              · rfl
              · rw [hp, hsd] at hpb; exact absurd hpb (by simp)
            exact hssres hu hsd hpd)
      exact ⟨s4, by simp [h4], g4wx, by simp [g4i], by simp [g4b], g4r⟩
  obtain ⟨s4, h4, e4wx, e4i, e4b, e4r⟩ := hSS
  have a4wx : s4.d.wx_alert_interrupt = false := by rw [e4wx, e3wx]
  have a4i : s4.i = i - decsB useSS d := by
    rw [e4i, a3i]
    unfold decsB
    rw [a3ss, a3pb, ssDecEq]
    ring
  have hdecb := decsB_nonneg_le useSS d
  obtain ⟨s5, h5, e5d, e5i, e5r, e5n⟩ :=
    renderBlock_proj lst dispDbg s4
      (by rw [a4i]; omega)
      (by rw [a4i]; omega)
  have a5wx : s5.d.wx_alert_interrupt = false := by rw [e5d]; exact a4wx
  have a5i : s5.i = i - decsB useSS d := by rw [e5i]; exact a4i
  have hEq : loopIter env lst logLst prevLst topDbg dispDbg useSS d i =
      .ok (endBlock lst s5) := by
    cases hu : useSS with
    | true =>
      have h4x : ssBlock env prevLst s3 = Except.ok s4 := by
        rw [hu] at h4; simpa using h4
      simp only [loopIter, h0, h1, h2, h3, h4x, h5, exceptOkBind, exceptPureEq]
      simp
    | false =>
      have h4x : s3 = s4 := by
        rw [hu] at h4; simpa [exceptPureEq] using h4
      subst h4x
      simp only [loopIter, h0, h1, h2, h3, h5, exceptOkBind, exceptPureEq]
      simp
  have hrend : renderedBoards s5.evs =
      (match chosenB useSS env d top with | some b => [b] | none => []) := by
    have hb4 : s4.board = chosenB useSS env d top := by
      rw [e4b, e3b, e2b, e1b, a3ss, a3pb, e2wx, e1wx, e1mq, e1show]
      unfold chosenB
      cases d.pb_trigger <;> cases d.screensaver <;> cases useSS <;> simp
    have hr0 : renderedBoards s4.evs = [] := by
      rw [e4r, e3r, e2r, e1r]
      cases topDbg <;> simp [renderedBoards]
    rw [e5r, hr0, hb4]
    simp
  refine ⟨endBlock lst s5, top, htop, hEq, ?_, ?_, ?_⟩
  · by_cases hd : i - decsB useSS d ≥ (lst.length : Int) - 1
    · rw [endBlock_done lst s5 (by rw [a5i]; exact hd)]
      simp [hd, a5i]
    · rw [endBlock_cont lst s5 (by rw [a5i]; exact hd) a5wx]
      simp [hd, a5i]
  · by_cases hd : i - decsB useSS d ≥ (lst.length : Int) - 1
    · rw [endBlock_done lst s5 (by rw [a5i]; exact hd)]
      simp [hd]
    · rw [endBlock_cont lst s5 (by rw [a5i]; exact hd) a5wx]
      simp [hd]
  · by_cases hd : i - decsB useSS d ≥ (lst.length : Int) - 1
    · rw [endBlock_done lst s5 (by rw [a5i]; exact hd)]
      exact hrend
    · rw [endBlock_cont lst s5 (by rw [a5i]; exact hd) a5wx]
      exact hrend

theorem modeIter_char (m : ModeKind) (env : BoardsEnv) (d : Data) (i : Int)
    (hi : 3 ≤ i) (hlen : i < ((modeList m d.config).length : Int))
    (hoff : i < (d.config.boards_off_day.length : Int))
    (hpbres : d.pb_trigger = true →
      env.resolvable d.config.pushbutton_state_triggered1 = true)
    (hmqres : d.mqtt_trigger = true → env.resolvable d.mqtt_showboard = true)
    (hwxres : d.wx_alert_interrupt = true → env.resolvable "wxalert" = true)
    (hssres : d.screensaver = true → d.pb_trigger = false →
      env.resolvable "screensaver" = true) :
    ∃ r top, pyIndex (modeList m d.config) i = .ok top ∧
      modeIter m env d i = .ok r ∧
      r.index = (if i - decsB (modeUsesSS m) d ≥ ((modeList m d.config).length : Int) - 1
                 then i - decsB (modeUsesSS m) d else i - decsB (modeUsesSS m) d + 1) ∧
      r.done = decide (i - decsB (modeUsesSS m) d ≥
        ((modeList m d.config).length : Int) - 1) ∧
      renderedBoards r.events =
        (match chosenB (modeUsesSS m) env d top with | some b => [b] | none => []) := by
  cases m with
  | offDay =>
    exact loopIter_char env d.config.boards_off_day d.config.boards_off_day
      d.config.boards_off_day true true true d i hi hlen (fun _ => hlen)
      (fun _ _ _ => hlen) hpbres hmqres hwxres (fun _ => hssres)
  | scheduled =>
    exact loopIter_char env d.config.boards_scheduled d.config.boards_off_day
      d.config.boards_off_day false false true d i hi hlen (fun _ => hoff)
      (fun _ _ _ => hoff) hpbres hmqres hwxres (fun _ => hssres)
  | intermission =>
    exact loopIter_char env d.config.boards_intermission d.config.boards_off_day
      d.config.boards_off_day false false false d i hi hlen (fun _ => hoff)
      (fun h _ _ => absurd h (by decide)) hpbres hmqres hwxres
      (fun h _ _ => absurd h (by decide))
  | postGame =>
    exact loopIter_char env d.config.boards_post_game d.config.boards_off_day
      d.config.boards_off_day false false true d i hi hlen (fun _ => hoff)
      (fun _ _ _ => hoff) hpbres hmqres hwxres (fun _ => hssres)

theorem decsB_honoredFlags (m : ModeKind) (d : Data) :
    (decsB (modeUsesSS m) d = 0 ↔ honoredFlags m d = 0) ∧
    (honoredFlags m d = 1 → decsB (modeUsesSS m) d = 1) := by
  cases m <;> cases hp : d.pb_trigger <;> cases hm : d.mqtt_trigger <;>
    cases hw : d.wx_alert_interrupt <;> cases hs : d.screensaver <;>
      simp [honoredFlags, modeUsesSS, decsB, b2i, hp, hm, hw, hs]

/-- C2 — the claim fails as stated: in `_intermission` the screensaver
flag is an active interrupt flag, yet the index still advances by one
(the screensaver block is commented out there), so "advances iff no
interrupt flag was active" is false for that mode.  Concretely, with
only the screensaver flag set, one intermission pass from index 0
advances to index 1. -/
theorem c2_counterexample :
    ssOnlyData.screensaver = true ∧
    indexOfIter (modeIter .intermission exEnv ssOnlyData 0) = 1 := by
  constructor
  · rfl
  · decide

/-- C2 (amended): in every rotation mode, as long as the pass raises no
exception (indices in range, referenced handlers resolvable) and the
pass is not the final one, the working index net-advances by one exactly
when no interrupt flag honoured by that mode was active at the start of
the pass (`_intermission` does not honour the screensaver flag), and
while exactly one honoured flag is active the same list slot is retried. -/
theorem rotation_index_advance_iff (m : ModeKind) (env : BoardsEnv) (d : Data) (i : Int)
    (hi : 3 ≤ i) (hlen : i + 1 < ((modeList m d.config).length : Int))
    (hoff : i < (d.config.boards_off_day.length : Int))
    (hpbres : d.pb_trigger = true →
      env.resolvable d.config.pushbutton_state_triggered1 = true)
    (hmqres : d.mqtt_trigger = true → env.resolvable d.mqtt_showboard = true)
    (hwxres : d.wx_alert_interrupt = true → env.resolvable "wxalert" = true)
    (hssres : d.screensaver = true → d.pb_trigger = false →
      env.resolvable "screensaver" = true) :
    ∃ r, modeIter m env d i = .ok r ∧ r.done = false ∧
      (r.index = i + 1 ↔ honoredFlags m d = 0) ∧
      (honoredFlags m d = 1 → r.index = i) := by
  obtain ⟨r, top, htop, hIter, hIdx, hDone, hrend⟩ :=
    modeIter_char m env d i hi (by omega) hoff hpbres hmqres hwxres hssres
  have hdec := decsB_nonneg_le (modeUsesSS m) d
  have hcond : ¬ (i - decsB (modeUsesSS m) d ≥
      ((modeList m d.config).length : Int) - 1) := by omega
  have hkey := decsB_honoredFlags m d
  refine ⟨r, hIter, ?_, ?_, ?_⟩
  · rw [hDone]; exact decide_eq_false hcond
  · rw [hIdx, if_neg hcond]
    constructor
    · intro h; exact hkey.1.mp (by omega)
    · intro h; have := hkey.1.mpr h; omega
  · intro h1
    have := hkey.2 h1
    rw [hIdx, if_neg hcond]
    omega

/-- Witness for the amended C2 theorem at concrete inputs: off-day mode,
no flag set, index 3 of a five-board list. -/
theorem rotation_index_advance_iff_witness :
    ∃ r, modeIter .offDay exEnv noFlagsData 3 = .ok r ∧ r.done = false ∧
      (r.index = 3 + 1 ↔ honoredFlags .offDay noFlagsData = 0) ∧
      (honoredFlags .offDay noFlagsData = 1 → r.index = 3) :=
  rotation_index_advance_iff .offDay exEnv noFlagsData 3 (by norm_num) (by decide)
    (by decide) (by decide) (by decide) (by decide) (by decide)

/-- C1 — the claim fails as stated: with all four interrupt flags set at
the start of an off-day pass, the board rendered is the weather-alert
board, not the configured manual-trigger board `"pbboard"`: each later
interrupt check overrides the `board` variable chosen by the earlier
ones. -/
theorem c1_counterexample :
    renderedOfIter (modeIter .offDay exEnv allFlagsData 3) = ["wxalert"] ∧
    allFlagsData.config.pushbutton_state_triggered1 = "pbboard" ∧
    ("wxalert" : String) ≠ "pbboard" := by
  refine ⟨by decide, rfl, by decide⟩

/-- C1 (amended): in every rotation mode, when all four interrupt flags
are set at the start of a pass (and the referenced handlers resolve and
the subscripts are in range), the board rendered in that pass is the
weather-alert board: the checks run in source order with each later
check overriding the board selection, and the screensaver redirect is
skipped because the manual trigger is still pending. -/
theorem rotation_all_flags_render_wx (m : ModeKind) (env : BoardsEnv) (d : Data) (i : Int)
    (hpb : d.pb_trigger = true) (hmq : d.mqtt_trigger = true)
    (hwx : d.wx_alert_interrupt = true) (hss : d.screensaver = true)
    (hi : 3 ≤ i) (hlen : i < ((modeList m d.config).length : Int))
    (hoff : i < (d.config.boards_off_day.length : Int))
    (h1 : env.resolvable d.config.pushbutton_state_triggered1 = true)
    (h2 : env.resolvable d.mqtt_showboard = true)
    (h3 : env.resolvable "wxalert" = true) :
    ∃ r, modeIter m env d i = .ok r ∧ renderedBoards r.events = ["wxalert"] := by
  obtain ⟨r, top, htop, hIter, hIdx, hDone, hrend⟩ :=
    modeIter_char m env d i hi hlen hoff (fun _ => h1) (fun _ => h2) (fun _ => h3)
      (fun _ hpf => absurd hpb (by simp [hpf]))
  refine ⟨r, hIter, ?_⟩
  rw [hrend]
  unfold chosenB
  simp [hpb, hmq, hwx, hss]

/-- Witness for the amended C1 theorem at concrete inputs. -/
theorem rotation_all_flags_render_wx_witness :
    ∃ r, modeIter .offDay exEnv allFlagsData 3 = .ok r ∧
      renderedBoards r.events = ["wxalert"] :=
  rotation_all_flags_render_wx .offDay exEnv allFlagsData 3 rfl rfl rfl rfl
    (by norm_num) (by decide) (by decide) (by decide) (by decide) (by decide)

theorem loopIter_clean (env : BoardsEnv) (lst logLst prevLst : List String)
    (topDbg dispDbg useSS : Bool) (d : Data) (k : Nat) (hk : k < lst.length)
    (hnf : noFlags d) :
    ∃ ev, loopIter env lst logLst prevLst topDbg dispDbg useSS d k =
        .ok { data := { d with curr_board := lst[k] },
              index := if (k : Int) ≥ (lst.length : Int) - 1 then (k : Int)
                       else (k : Int) + 1,
              events := ev,
              done := decide ((k : Int) ≥ (lst.length : Int) - 1) } ∧
      renderedBoards ev = (if env.resolvable lst[k] then [lst[k]] else []) ∧
      notFoundNames ev = (if env.resolvable lst[k] then [] else [lst[k]]) := by
  obtain ⟨hpb, hmq, hwx, hss⟩ := hnf
  have htop : pyIndex lst (k : Int) = .ok lst[k] := pyIndex_natCast lst k hk
  refine ⟨(if topDbg then [Event.topDebug (k : Int) lst[k]] else []) ++
      (if env.resolvable lst[k] then
        (if dispDbg then [Event.displayDebug lst[k], Event.render lst[k]]
         else [Event.render lst[k]])
       else [Event.boardNotFound lst[k]]), ?_, ?_, ?_⟩
  · by_cases hres : env.resolvable lst[k] = true
    · rcases le_or_lt (lst.length : Int) ((k : Int) + 1) with hdone2 | hdone3
      · have hdone : (k : Int) ≥ (lst.length : Int) - 1 := by omega
        cases topDbg <;> cases dispDbg <;> cases useSS <;>
          simp [loopIter, startBlock, pbBlock, mqttBlock, wxBlock, ssBlock,
            renderBlock, endBlock, pyGetattrOpt, htop, hpb, hmq, hwx, hss, hres,
            hdone, hdone2, exceptOkBind, exceptPureEq]
      · have hdone : ¬ (k : Int) ≥ (lst.length : Int) - 1 := by omega
        have hdone2 : ¬ (lst.length : Int) ≤ (k : Int) + 1 := by omega
        cases topDbg <;> cases dispDbg <;> cases useSS <;>
          simp [loopIter, startBlock, pbBlock, mqttBlock, wxBlock, ssBlock,
            renderBlock, endBlock, pyGetattrOpt, htop, hpb, hmq, hwx, hss, hres,
            hdone, hdone2, exceptOkBind, exceptPureEq]
    · rcases le_or_lt (lst.length : Int) ((k : Int) + 1) with hdone2 | hdone3
      · have hdone : (k : Int) ≥ (lst.length : Int) - 1 := by omega
        cases topDbg <;> cases dispDbg <;> cases useSS <;>
          simp [loopIter, startBlock, pbBlock, mqttBlock, wxBlock, ssBlock,
            renderBlock, endBlock, pyGetattrOpt, htop, hpb, hmq, hwx, hss, hres,
            hdone, hdone2, exceptOkBind, exceptPureEq]
      · have hdone : ¬ (k : Int) ≥ (lst.length : Int) - 1 := by omega
        have hdone2 : ¬ (lst.length : Int) ≤ (k : Int) + 1 := by omega
        cases topDbg <;> cases dispDbg <;> cases useSS <;>
          simp [loopIter, startBlock, pbBlock, mqttBlock, wxBlock, ssBlock,
            renderBlock, endBlock, pyGetattrOpt, htop, hpb, hmq, hwx, hss, hres,
            hdone, hdone2, exceptOkBind, exceptPureEq]
  · by_cases hres : env.resolvable lst[k] = true <;>
      cases topDbg <;> cases dispDbg <;>
        simp_all [renderedBoards]
  · by_cases hres : env.resolvable lst[k] = true <;>
      cases topDbg <;> cases dispDbg <;>
        simp_all [notFoundNames]

theorem runRotation_clean (step : Data → Int → Except PyError IterResult)
    (cfg : Config) (lst : List String) (res : String → Bool)
    (H : ∀ d (k : Nat) (hk : k < lst.length), d.config = cfg → noFlags d →
      ∃ ev, step d k =
          .ok { data := { d with curr_board := lst[k] },
                index := if (k : Int) ≥ (lst.length : Int) - 1 then (k : Int)
                         else (k : Int) + 1,
                events := ev,
                done := decide ((k : Int) ≥ (lst.length : Int) - 1) } ∧
        renderedBoards ev = (if res lst[k] then [lst[k]] else []) ∧
        notFoundNames ev = (if res lst[k] then [] else [lst[k]])) :
    ∀ fuel (k : Nat) d, d.config = cfg → noFlags d → k < lst.length →
      lst.length - k ≤ fuel →
      ∃ d2 evs, runRotation step fuel d k = .ok (some (d2, evs)) ∧
        renderedBoards evs = (lst.drop k).filter res ∧
        notFoundNames evs = (lst.drop k).filter (fun n => !res n) := by
  intro fuel
  induction fuel with
  | zero => intro k d _ _ hk hf; omega
  | succ fuel ih =>
    intro k d hcfg hnf hk hf
    obtain ⟨ev, hstep, hr, hn⟩ := H d k hk hcfg hnf
    have hdrop := List.drop_eq_getElem_cons hk
    by_cases hlast : (k : Int) ≥ (lst.length : Int) - 1
    · have hk1 : lst.length = k + 1 := by omega
      have hnil : lst.drop (k + 1) = [] := List.drop_eq_nil_of_le (by omega)
      refine ⟨{ d with curr_board := lst[k] }, ev, ?_, ?_, ?_⟩
      · show runRotation step (fuel + 1) d k = _
        unfold runRotation
        rw [hstep]
        simp [hlast]
      · rw [hr, hdrop, hnil]
        cases hres : res lst[k] <;> simp [List.filter, hres]
      · rw [hn, hdrop, hnil]
        cases hres : res lst[k] <;> simp [List.filter, hres]
    · have hklen : k + 1 < lst.length := by omega
      obtain ⟨d2, evs2, hrun, hr2, hn2⟩ :=
        ih (k + 1) { d with curr_board := lst[k] } hcfg
          ⟨hnf.1, hnf.2.1, hnf.2.2.1, hnf.2.2.2⟩ hklen (by omega)
      refine ⟨d2, ev ++ evs2, ?_, ?_, ?_⟩
      · show runRotation step (fuel + 1) d k = _
        unfold runRotation
        rw [hstep]
        have hdfalse : decide ((k : Int) ≥ (lst.length : Int) - 1) = false :=
          decide_eq_false hlast
        have hif : (if (k : Int) ≥ (lst.length : Int) - 1 then (k : Int)
            else (k : Int) + 1) = ((k + 1 : Nat) : Int) := by
          rw [if_neg hlast]; push_cast; ring
        simp only [hdfalse, hif, Bool.false_eq_true, if_false, hrun]
      · rw [renderedBoards_append, hr, hr2, hdrop]
        cases hres : res lst[k] <;> simp [List.filter, hres]
      · rw [notFoundNames_append, hn, hn2, hdrop]
        cases hres : res lst[k] <;> simp [List.filter, hres]

theorem exceptErrBind {α β ε : Type} (e : ε) (f : α → Except ε β) :
    (Except.error e : Except ε α) >>= f = .error e := rfl

theorem filter_length_split (p : String → Bool) (l : List String) :
    (l.filter p).length + (l.filter fun a => !(p a)).length = l.length := by
  induction l with
  | nil => rfl
  | cons a t ih => cases hp : p a <;> simp [List.filter_cons, hp] <;> omega

theorem modeIter_clean (m : ModeKind) (env : BoardsEnv) (cfg : Config) (d : Data)
    (hcfg : d.config = cfg)
    (k : Nat) (hk : k < (modeList m cfg).length) (hnf : noFlags d) :
    ∃ ev, modeIter m env d k =
        .ok { data := { d with curr_board := (modeList m cfg)[k] },
              index := if (k : Int) ≥ ((modeList m cfg).length : Int) - 1
                       then (k : Int) else (k : Int) + 1,
              events := ev,
              done := decide ((k : Int) ≥ ((modeList m cfg).length : Int) - 1) } ∧
      renderedBoards ev =
        (if env.resolvable (modeList m cfg)[k] then [(modeList m cfg)[k]]
         else []) ∧
      notFoundNames ev =
        (if env.resolvable (modeList m cfg)[k] then []
         else [(modeList m cfg)[k]]) := by
  subst hcfg
  cases m with
  | offDay =>
    exact loopIter_clean env d.config.boards_off_day d.config.boards_off_day
      d.config.boards_off_day true true true d k hk hnf
  | scheduled =>
    exact loopIter_clean env d.config.boards_scheduled d.config.boards_off_day
      d.config.boards_off_day false false true d k hk hnf
  | intermission =>
    exact loopIter_clean env d.config.boards_intermission d.config.boards_off_day
      d.config.boards_off_day false false false d k hk hnf
  | postGame =>
    exact loopIter_clean env d.config.boards_post_game d.config.boards_off_day
      d.config.boards_off_day false false true d k hk hnf

theorem modeRun_clean (m : ModeKind) (env : BoardsEnv) (d : Data) (fuel : Nat)
    (hnf : noFlags d) (hk : 0 < (modeList m d.config).length)
    (hfuel : (modeList m d.config).length ≤ fuel) :
    ∃ d2 evs, modeRun m env fuel d 0 = .ok (some (d2, evs)) ∧
      renderedBoards evs = (modeList m d.config).filter env.resolvable ∧
      notFoundNames evs =
        (modeList m d.config).filter (fun n => !env.resolvable n) := by
  have H : ∀ d2 (k : Nat) (hk2 : k < (modeList m d.config).length),
      d2.config = d.config → noFlags d2 →
      ∃ ev, modeIter m env d2 k =
          .ok { data := { d2 with curr_board := (modeList m d.config)[k] },
                index := if (k : Int) ≥ ((modeList m d.config).length : Int) - 1
                         then (k : Int) else (k : Int) + 1,
                events := ev,
                done := decide ((k : Int) ≥
                  ((modeList m d.config).length : Int) - 1) } ∧
        renderedBoards ev =
          (if env.resolvable (modeList m d.config)[k]
           then [(modeList m d.config)[k]] else []) ∧
        notFoundNames ev =
          (if env.resolvable (modeList m d.config)[k] then []
           else [(modeList m d.config)[k]]) := by
    intro d2 k hk2 hcfg hnf2
    exact modeIter_clean m env d.config d2 hcfg k hk2 hnf2
  obtain ⟨d2, evs, hrun, hr, hn⟩ :=
    runRotation_clean (modeIter m env) d.config (modeList m d.config)
      env.resolvable H fuel 0 d rfl hnf hk (by omega)
  exact ⟨d2, evs, hrun, by simpa using hr, by simpa using hn⟩

/-- C5: in every rotation mode, with no interrupt flag ever set and every
listed board id resolvable, a full run of the mode's loop returns after
rendering exactly the listed boards, one render per listed id, in listed
order. -/
theorem rotation_renders_all_in_order (m : ModeKind) (env : BoardsEnv) (d : Data)
    (fuel : Nat) (hnf : noFlags d) (hne : modeList m d.config ≠ [])
    (hres : ∀ n ∈ modeList m d.config, env.resolvable n = true)
    (hfuel : (modeList m d.config).length ≤ fuel) :
    ∃ d2 evs, modeRun m env fuel d 0 = .ok (some (d2, evs)) ∧
      renderedBoards evs = modeList m d.config := by
  obtain ⟨d2, evs, hrun, hr, hn⟩ :=
    modeRun_clean m env d fuel hnf (List.length_pos.mpr hne) hfuel
  refine ⟨d2, evs, hrun, ?_⟩
  rw [hr]
  exact List.filter_eq_self.mpr hres

/-- Witness for the C5 theorem at concrete inputs: off-day mode, five
resolvable boards, fuel 5. -/
theorem rotation_renders_all_in_order_witness :
    ∃ d2 evs, modeRun .offDay exEnv 5 noFlagsData 0 = .ok (some (d2, evs)) ∧
      renderedBoards evs = modeList .offDay noFlagsData.config :=
  rotation_renders_all_in_order .offDay exEnv noFlagsData 5 (by decide) (by decide)
    (by decide) (by decide)

/-- C6: in every rotation mode, with no interrupt flag set and exactly
one listed id unresolvable, a full run returns normally (no exception),
renders one board fewer than the list length, and logs exactly one
`Board not found` error naming the missing id. -/
theorem rotation_missing_board_skipped (m : ModeKind) (env : BoardsEnv) (d : Data)
    (fuel : Nat) (missing : String) (hnf : noFlags d)
    (hone : (modeList m d.config).filter (fun n => !env.resolvable n) = [missing])
    (hfuel : (modeList m d.config).length ≤ fuel) :
    ∃ d2 evs, modeRun m env fuel d 0 = .ok (some (d2, evs)) ∧
      (renderedBoards evs).length = (modeList m d.config).length - 1 ∧
      notFoundNames evs = [missing] := by
  have hne : 0 < (modeList m d.config).length := by
    rcases hl : modeList m d.config with _ | ⟨a, t⟩
    · rw [hl] at hone; simp [List.filter] at hone
    · simp
  obtain ⟨d2, evs, hrun, hr, hn⟩ := modeRun_clean m env d fuel hnf hne hfuel
  have hsplit := filter_length_split env.resolvable (modeList m d.config)
  refine ⟨d2, evs, hrun, ?_, ?_⟩
  · rw [hr]
    have : ((modeList m d.config).filter fun n => !env.resolvable n).length = 1 := by
      rw [hone]; rfl
    omega
  · rw [hn, hone]

/-- Witness for the C6 theorem at concrete inputs: off-day mode where
only `standings` fails to resolve. -/
theorem rotation_missing_board_skipped_witness :
    ∃ d2 evs, modeRun .offDay exEnvNoStandings 5 noFlagsData 0 = .ok (some (d2, evs)) ∧
      (renderedBoards evs).length = (modeList .offDay noFlagsData.config).length - 1 ∧
      notFoundNames evs = ["standings"] :=
  rotation_missing_board_skipped .offDay exEnvNoStandings noFlagsData 5 "standings"
    (by decide) (by decide) (by decide)

/-- C10: in every rotation mode, an empty configured board list makes the
loop raise an uncaught `IndexError` on its first pass (subscript 0 of the
empty list), instead of returning after zero renders. -/
theorem rotation_empty_list_raises (m : ModeKind) (env : BoardsEnv) (d : Data)
    (fuel : Nat) (hempty : modeList m d.config = []) :
    modeRun m env (fuel + 1) d 0 = .error .indexError := by
  have hnil : pyIndex (modeList m d.config) 0 = .error .indexError := by
    rw [hempty]; exact pyIndex_nil 0 (by omega)
  have hiter : modeIter m env d 0 = .error .indexError := by
    cases m <;>
      simp_all [modeIter, offDayIter, scheduledIter, intermissionIter, postGameIter,
        loopIter, startBlock, modeList, exceptErrBind]
  show runRotation (modeIter m env) (fuel + 1) d 0 = .error .indexError
  unfold runRotation
  rw [hiter]

/-- Witness for the C10 theorem at concrete inputs: empty off-day list. -/
theorem rotation_empty_list_raises_witness :
    modeRun .offDay exEnv 1 emptyData 0 = .error .indexError :=
  rotation_empty_list_raises .offDay exEnv emptyData 0 (by decide)

theorem dictSet_lookup_same (l : List (String × Nat)) (k : String) (v : Nat) :
    (dictSet l k v).lookup k = some v := by
  simp [dictSet, List.lookup]

theorem dictDel_lookup_same (l : List (String × Nat)) (k : String) :
    (dictDel l k).lookup k = none := by
  induction l with
  | nil => rfl
  | cons p t ih =>
    rcases p with ⟨a, v⟩
    by_cases hp : a = k
    · simpa [dictDel, List.filter_cons, hp] using ih
    · have h1 : (a == k) = false := beq_eq_false_iff_ne.mpr hp
      have h2 : (k == a) = false := beq_eq_false_iff_ne.mpr (Ne.symm hp)
      simpa [dictDel, List.filter_cons, h1, h2, List.lookup] using ih

/-- C4: from a state in which a board id is not cached, the first access
constructs the instance, the second access returns the identical
instance with the constructor invoked only once across both calls;
evicting the id via `clear_board_cache` calls the instance's `cleanup`
hook when the class defines one, and the next access constructs and
returns a new, distinct instance. -/
theorem cache_idempotent_and_evict (st : CacheState) (name : String)
    (cls : BoardClass) (hc : String → Bool) (hok : cls.ctorOk = true)
    (habs : st.instances.lookup name = none) :
    (getCachedBoardInstance st name cls).1 = some st.nextId ∧
    (getCachedBoardInstance
      (getCachedBoardInstance st name cls).2.1 name cls).1 = some st.nextId ∧
    countCreated ((getCachedBoardInstance st name cls).2.2 ++
      (getCachedBoardInstance
        (getCachedBoardInstance st name cls).2.1 name cls).2.2) = 1 ∧
    (hc name = true → CEvent.cleanupCalled name ∈
      (clearBoardCache
        (getCachedBoardInstance
          (getCachedBoardInstance st name cls).2.1 name cls).2.1 (some name) hc).2) ∧
    (getCachedBoardInstance
      (clearBoardCache
        (getCachedBoardInstance
          (getCachedBoardInstance st name cls).2.1 name cls).2.1 (some name) hc).1
      name cls).1 = some (st.nextId + 1) ∧
    some (st.nextId + 1) ≠ some st.nextId := by
  have h1 : getCachedBoardInstance st name cls =
      (some st.nextId,
        { instances := dictSet st.instances name st.nextId, nextId := st.nextId + 1 },
        [CEvent.createdLegacy name]) := by
    simp [getCachedBoardInstance, habs, hok, dictSet_lookup_same]
  have h2 : getCachedBoardInstance
      (getCachedBoardInstance st name cls).2.1 name cls =
      (some st.nextId,
        { instances := dictSet st.instances name st.nextId, nextId := st.nextId + 1 },
        [CEvent.usedCached name]) := by
    rw [h1]
    simp [getCachedBoardInstance, dictSet_lookup_same]
  have h3 : clearBoardCache
      (getCachedBoardInstance
        (getCachedBoardInstance st name cls).2.1 name cls).2.1 (some name) hc =
      ({ instances := dictDel (dictSet st.instances name st.nextId) name,
         nextId := st.nextId + 1 },
        (if hc name then [CEvent.cleanupCalled name] else []) ++
          [CEvent.clearedOne name]) := by
    rw [h2]
    simp [clearBoardCache, dictSet_lookup_same]
  refine ⟨by rw [h1], by rw [h2], ?_, ?_, ?_, by simp⟩
  · rw [h2, h1]
    rfl
  · intro hcn
    rw [h3]
    simp [hcn]
  · rw [h3]
    simp [getCachedBoardInstance, dictDel_lookup_same, hok, dictSet_lookup_same]

/-- Witness for the C4 theorem at concrete inputs. -/
theorem cache_idempotent_and_evict_witness :
    (getCachedBoardInstance emptyCache "clock" okCls).1 = some emptyCache.nextId ∧
    (getCachedBoardInstance
      (getCachedBoardInstance emptyCache "clock" okCls).2.1 "clock" okCls).1 =
      some emptyCache.nextId ∧
    countCreated ((getCachedBoardInstance emptyCache "clock" okCls).2.2 ++
      (getCachedBoardInstance
        (getCachedBoardInstance emptyCache "clock" okCls).2.1 "clock" okCls).2.2) = 1 ∧
    ((fun _ => true : String → Bool) "clock" = true → CEvent.cleanupCalled "clock" ∈
      (clearBoardCache
        (getCachedBoardInstance
          (getCachedBoardInstance emptyCache "clock" okCls).2.1 "clock" okCls).2.1
        (some "clock") (fun _ => true)).2) ∧
    (getCachedBoardInstance
      (clearBoardCache
        (getCachedBoardInstance
          (getCachedBoardInstance emptyCache "clock" okCls).2.1 "clock" okCls).2.1
        (some "clock") (fun _ => true)).1 "clock" okCls).1 =
      some (emptyCache.nextId + 1) ∧
    some (emptyCache.nextId + 1) ≠ some emptyCache.nextId :=
  cache_idempotent_and_evict emptyCache "clock" okCls (fun _ => true) rfl rfl

/-- C3: code bug — when a board's constructor raises, the instance cache
does catch the exception, log `Failed to load board`, and return `None`;
but the wrapper method (`Boards.scoreticker` and its siblings) then calls
`.render()` on that `None` unconditionally, so an `AttributeError`
propagates out of the scheduler instead of the board being treated as
not found. -/
theorem scoreticker_ctor_failure_raises (st : CacheState) (cls : BoardClass)
    (hfail : cls.ctorOk = false)
    (habs : st.instances.lookup "scoreticker" = none) :
    getCachedBoardInstance st "scoreticker" cls =
      (none, st, [CEvent.failedLoad "scoreticker"]) ∧
    scoreticker st cls = .error .attributeError := by
  have h1 : getCachedBoardInstance st "scoreticker" cls =
      (none, st, [CEvent.failedLoad "scoreticker"]) := by
    simp [getCachedBoardInstance, habs, hfail]
  exact ⟨h1, by simp [scoreticker, legacyWrapper, h1]⟩

/-- Witness for the C3 theorem at concrete inputs. -/
theorem scoreticker_ctor_failure_raises_witness :
    getCachedBoardInstance emptyCache "scoreticker" failingCls =
      (none, emptyCache, [CEvent.failedLoad "scoreticker"]) ∧
    scoreticker emptyCache failingCls = .error .attributeError :=
  scoreticker_ctor_failure_raises emptyCache failingCls rfl rfl

theorem checkDeps_fail (env : LoadEnv) (plugin : String) (deps : List String)
    (hbad : ∃ dep ∈ deps, env.importable (pkgName dep) = false) :
    (checkDeps env plugin deps).1 = false ∧
    ∃ dep2 ∈ deps, env.importable (pkgName dep2) = false ∧
      LEvent.depMissing plugin dep2 ∈ (checkDeps env plugin deps).2 := by
  induction deps with
  | nil => simp at hbad
  | cons dep rest ih =>
    by_cases hd : env.importable (pkgName dep) = true
    · have hbad2 : ∃ d2 ∈ rest, env.importable (pkgName d2) = false := by
        obtain ⟨d2, hmem, hfl⟩ := hbad
        rcases List.mem_cons.mp hmem with rfl | hmem2
        · rw [hd] at hfl; cases hfl
        · exact ⟨d2, hmem2, hfl⟩
      obtain ⟨h1, d2, hmem, hfl, hev⟩ := ih hbad2
      refine ⟨by simp [checkDeps, hd, h1], d2, List.mem_cons_of_mem dep hmem, hfl, ?_⟩
      simp [checkDeps, hd]
      exact hev
    · rw [Bool.not_eq_true] at hd
      exact ⟨by simp [checkDeps, hd], dep, List.mem_cons_self dep rest, hd,
        by simp [checkDeps, hd]⟩

/-- C7: a manifest (for an enabled module) declaring a Python dependency
whose package cannot be imported registers none of the module's declared
boards — the requirements check gates the whole module before any
per-board loading — and an error-level diagnostic naming an unmet
dependency specifier is logged. -/
theorem missing_dependency_excludes_module (env : LoadEnv) (board_name : String)
    (md : Metadata) (directory_name : String) (deps : List String)
    (hen : md.enabled = true)
    (hdeps : md.requirements.python_dependencies = some deps)
    (hbad : ∃ dep ∈ deps, env.importable (pkgName dep) = false) :
    (loadSingleBoard env board_name (.ok md) directory_name).1 = [] ∧
    ∃ dep2 ∈ deps, env.importable (pkgName dep2) = false ∧
      LEvent.depMissing board_name dep2 ∈
        (loadSingleBoard env board_name (.ok md) directory_name).2 := by
  obtain ⟨hfail, dep2, hmem, hfl, hev⟩ := checkDeps_fail env board_name deps hbad
  have hval : (validateRequirements env md.requirements board_name).1 = false := by
    simp [validateRequirements, hdeps, hfail]
  have hvalev : LEvent.depMissing board_name dep2 ∈
      (validateRequirements env md.requirements board_name).2 := by
    simp [validateRequirements, hdeps]
    exact Or.inr (Or.inr hev)
  constructor
  · simp [loadSingleBoard, hen, hval]
  · refine ⟨dep2, hmem, hfl, ?_⟩
    simp [loadSingleBoard, hen, hval]
    exact hvalev

/-- Witness for the C7 theorem at concrete inputs: a manifest requiring
`holidays>=0.35` in an environment where `holidays` is not importable. -/
theorem missing_dependency_excludes_module_witness :
    (loadSingleBoard noHolidaysEnv "holiday_countdown" (.ok depsMeta) "plugins").1 = [] ∧
    ∃ dep2 ∈ ["holidays>=0.35"], noHolidaysEnv.importable (pkgName dep2) = false ∧
      LEvent.depMissing "holiday_countdown" dep2 ∈
        (loadSingleBoard noHolidaysEnv "holiday_countdown" (.ok depsMeta) "plugins").2 :=
  missing_dependency_excludes_module noHolidaysEnv "holiday_countdown" depsMeta
    "plugins" ["holidays>=0.35"] rfl rfl ⟨"holidays>=0.35", by decide, by decide⟩

/-- C8 — the claim fails as stated: discovery processes the plugins root
first, then the builtins root (`_load_boards` calls the loader for
`'plugins'` before `'builtins'`), so the first processed entry comes
from the plugins root, not the builtins root. -/
theorem c8_counterexample :
    ((loadBoards twoRootFs).1.head?.map Prod.fst) = some "plugins" ∧
    some ("plugins" : String) ≠ some "builtins" := by
  refine ⟨by decide, by decide⟩

/-- C8 (amended): discovery processes the user/plugin root directory
first and the system builtins root second; within each existing root it
processes exactly the immediate entries that are directories and whose
names do not start with the reserved `_` prefix, in iteration order. -/
theorem discovery_order_and_skip (fs : FsEnv) :
    (loadBoards fs).1 =
      (loadBoardsFromDirectory fs "plugins").1 ++
        (loadBoardsFromDirectory fs "builtins").1 ∧
    ∀ root, fs.rootExists root = true →
      (loadBoardsFromDirectory fs root).1 =
        ((fs.entries root).filter fun e =>
            e.isDir && !(pyUnderscoreFirst e.name)).map
          (fun e => (root, e.name)) := by
  constructor
  · rfl
  · intro root hex
    simp [loadBoardsFromDirectory, hex]

/-- Witness for the amended C8 theorem at concrete inputs. -/
theorem discovery_order_and_skip_witness :
    (loadBoards twoRootFs).1 =
      (loadBoardsFromDirectory twoRootFs "plugins").1 ++
        (loadBoardsFromDirectory twoRootFs "builtins").1 ∧
    (loadBoardsFromDirectory twoRootFs "plugins").1 =
      ((twoRootFs.entries "plugins").filter fun e =>
          e.isDir && !(pyUnderscoreFirst e.name)).map (fun e => ("plugins", e.name)) :=
  ⟨(discovery_order_and_skip twoRootFs).1,
   (discovery_order_and_skip twoRootFs).2 "plugins" (by decide)⟩

/-- C9: code bug — in `_scheduled` (and likewise `_post_game`) the
screensaver redirect records `prev_board` from
`data.config.boards_off_day`, not from the active mode's own list: with
only the screensaver flag set at index 0 of the scheduled rotation, the
displaced board is `boards_scheduled[0] = "team_summary"`, but the code
stores `boards_off_day[0] = "scoreticker"`.  `_off_day` reads its own
list, so the claim holds only there. -/
theorem scheduled_prev_board_wrong_list :
    prevBoardOfIter (modeIter .scheduled exEnv ssOnlyData 0) = "scoreticker" ∧
    ssOnlyData.config.boards_scheduled.head? = some "team_summary" ∧
    ssOnlyData.config.boards_off_day.head? = some "scoreticker" ∧
    ("scoreticker" : String) ≠ "team_summary" := by
  refine ⟨by decide, rfl, rfl, by decide⟩
